import Mathlib

/-!
# SMS Balance Monitor — shallow embedding and verification

This file embeds the decision logic of the `sms-balance-monitor` repository
(the functions `shouldSendNotification`, `getSkipReason`, `alertLowSMSBalance`,
`checkSMSBalance`, `loadState`, `saveState` of the monitor entry point, and the
recipient handling of `config.js`) as pure Lean functions, and proves or
refutes the specification's claims about them.

Modelling conventions:
* JavaScript numbers holding balances and configured thresholds are modelled
  as `Int` (the spec's scenarios and the `parseInt`-parsed configuration are
  integral; every comparison involved — `<=`, `>`, `Math.abs`-distance — is
  order-theoretic and behaves identically on integers).
* Timestamps (`Date.now()` values) are `Nat`; time differences are computed
  in `Int` so that `now - lastNotificationTime` may be negative, exactly as
  in JavaScript.
* The JavaScript truthiness test `state.lastNotificationTime && ...` is
  modelled explicitly: `null` (here `none`) and the number `0` are falsy.
* Effects are made explicit: the outcome of the provider's `checkBalance()`
  is a parameter `fetched : Option (Option Int)` (`none` = the promise
  rejected, `some none` = a `null`/`undefined` balance, `some (some b)` = a
  numeric balance), and the outcome of `sendSMS` is a parameter
  `sendOk : Bool` (`false` = the promise rejected).
* `saveState`/`loadState` write and read a single JSON object; the serialized
  form is modelled by `PersistedState`, a record whose fields may each be
  absent (outer `none` = key missing from the JSON object), since `loadState`
  merges the parsed object over the defaults.
-/

namespace SMSBalanceMonitor

/-- `MONITOR_CONFIG` of `config.js` (all five fields are `parseInt(env) || default`). -/
structure MonitorConfig where
  threshold : Int
  checkInterval : Nat
  notificationCooldown : Nat
  maxConsecutiveNotifications : Nat
  balanceChangeThreshold : Int
  deriving Repr, DecidableEq

/-- The default configuration values of `config.js`:
threshold 700, check interval 5 min, cooldown 30 min, max 4 consecutive
notifications, balance-change threshold 10. -/
def defaultMonitorConfig : MonitorConfig :=
  { threshold := 700
    checkInterval := 300000
    notificationCooldown := 1800000
    maxConsecutiveNotifications := 4
    balanceChangeThreshold := 10 }

/-- The persisted `MonitorState` record (the `defaultState` shape of the
monitor entry point). -/
structure MonitorState where
  lastNotificationTime : Option Nat
  consecutiveNotificationCount : Nat
  lastKnownBalance : Option Int
  lastCheckTime : Option Nat
  totalChecks : Nat
  totalNotifications : Nat
  deriving Repr, DecidableEq

/-- `defaultState` of the monitor entry point: all-null / zero. -/
def defaultState : MonitorState :=
  { lastNotificationTime := none
    consecutiveNotificationCount := 0
    lastKnownBalance := none
    lastCheckTime := none
    totalChecks := 0
    totalNotifications := 0 }

/-- The guard `state.lastNotificationTime && (now - state.lastNotificationTime) <
NOTIFICATION_COOLDOWN` of `shouldSendNotification` and `getSkipReason`.
JavaScript truthiness: `null` and `0` are falsy, so a stored timestamp `0`
disables the cooldown test. The subtraction is done in `Int`, as in JS. -/
def cooldownActive (cfg : MonitorConfig) (now : Nat) (lastNotificationTime : Option Nat) : Bool :=
  match lastNotificationTime with
  | none => false
  | some t => t != 0 && decide ((now : Int) - (t : Int) < (cfg.notificationCooldown : Int))

/-- The guard `state.lastKnownBalance !== null && Math.abs(balance -
state.lastKnownBalance) < BALANCE_CHANGE_THRESHOLD`. -/
def balanceChangeTooSmall (cfg : MonitorConfig) (balance : Int) (lastKnownBalance : Option Int) : Bool :=
  match lastKnownBalance with
  | none => false
  | some lk => decide (|balance - lk| < cfg.balanceChangeThreshold)

/-- `shouldSendNotification(now, balance, state)` of the monitor entry point.
The source mutates `state` in place in its balance-recovered branch (resetting
the counter, recording the balance and calling `saveState`); the returned pair
is (the returned boolean, the state object as the function leaves it). -/
def shouldSendNotification (cfg : MonitorConfig) (now : Nat) (balance : Int)
    (state : MonitorState) : Bool × MonitorState :=
  if balance > cfg.threshold then
    if state.consecutiveNotificationCount > 0 then
      (false, { state with consecutiveNotificationCount := 0, lastKnownBalance := some balance })
    else
      (false, state)
  else if state.consecutiveNotificationCount ≥ cfg.maxConsecutiveNotifications then
    (false, state)
  else if state.consecutiveNotificationCount = 0 then
    (true, state)
  else if cooldownActive cfg now state.lastNotificationTime then
    (false, state)
  else if balanceChangeTooSmall cfg balance state.lastKnownBalance then
    (false, state)
  else
    (true, state)

/-- `Math.ceil((NOTIFICATION_COOLDOWN - (now - lastNotificationTime)) / 60000)`
of `getSkipReason`. In the only branch that evaluates it the numerator is a
positive integer `d`, and for positive integral `d` the real-valued
`Math.ceil(d / 60000)` equals `(d + 59999) / 60000` under integer floor
division. -/
def minutesRemaining (cfg : MonitorConfig) (now t : Nat) : Nat :=
  (((cfg.notificationCooldown : Int) - ((now : Int) - (t : Int))) + 59999).toNat / 60000

/-- The skip-reason string of `getSkipReason`'s max-consecutive branch. -/
def maxReachedMsg (m : Nat) : String :=
  "Max consecutive notifications reached (" ++ toString m ++ ")"

/-- The skip-reason string of `getSkipReason`'s cooldown branch. -/
def cooldownMsg (m : Nat) : String :=
  "Within cooldown period (" ++ toString m ++ " minutes remaining)"

/-- The skip-reason string of `getSkipReason`'s balance-change branch. -/
def balanceChangeMsg (c : Int) : String :=
  "Balance change too small (< " ++ toString c ++ " units)"

/-- `getSkipReason(now, balance, state)` of the monitor entry point. Its guard
cascade mirrors `shouldSendNotification`; the `Option.getD 0` is only reached
under `cooldownActive`, which guarantees the timestamp is present. -/
def getSkipReason (cfg : MonitorConfig) (now : Nat) (balance : Int)
    (state : MonitorState) : String :=
  if balance > cfg.threshold then
    "Balance above threshold"
  else if state.consecutiveNotificationCount ≥ cfg.maxConsecutiveNotifications then
    maxReachedMsg cfg.maxConsecutiveNotifications
  else if state.consecutiveNotificationCount = 0 then
    "Unknown (should not happen)"
  else if cooldownActive cfg now state.lastNotificationTime then
    cooldownMsg (minutesRemaining cfg now (state.lastNotificationTime.getD 0))
  else if balanceChangeTooSmall cfg balance state.lastKnownBalance then
    balanceChangeMsg cfg.balanceChangeThreshold
  else
    "Unknown"

/-- `alertLowSMSBalance(balance)` of the monitor entry point, with the loaded
state and the outcome of `SMSProvider.sendSMS` made explicit. The source awaits
`sendSMS` FIRST and only then applies the tracking update (counter increment,
`lastNotificationTime = now`, `lastKnownBalance = balance`,
`totalNotifications++`, `saveState`); a rejected `sendSMS` jumps to the catch
block, which only logs. Result: (state as persisted after the call, whether an
SMS was delivered). -/
def alertLowSMSBalance (cfg : MonitorConfig) (now : Nat) (balance : Int)
    (state0 : MonitorState) (sendOk : Bool) : MonitorState × Bool :=
  let r := shouldSendNotification cfg now balance state0
  let state := r.2
  if r.1 then
    if sendOk then
      ({ state with
           lastNotificationTime := some now
           consecutiveNotificationCount := state.consecutiveNotificationCount + 1
           lastKnownBalance := some balance
           totalNotifications := state.totalNotifications + 1 },
       true)
    else
      (state, false)
  else
    (state, false)

/-- Outcome of one `checkSMSBalance()` cycle. `bookkeeping` is the state that
is persisted by the `saveState(state)` preceding the provider fetch; `final`
is the state persisted when the cycle finishes; `engineInvoked` records
whether `alertLowSMSBalance` (and so the decision logic) ran;
`notificationSent` records whether an SMS was delivered. -/
structure CycleResult where
  bookkeeping : MonitorState
  final : MonitorState
  engineInvoked : Bool
  notificationSent : Bool
  deriving Repr, DecidableEq

/-- `checkSMSBalance()` of the monitor entry point. `tCheck` is the
`Date.now()` sampled for `lastCheckTime`; `tAlert` the one sampled inside
`alertLowSMSBalance`. The bookkeeping update (`totalChecks++`,
`lastCheckTime`) is computed and persisted before the fetch outcome is
inspected; a rejected fetch (`fetched = none`) or a `null`/`undefined` balance
(`fetched = some none`) leaves the engine uninvoked and the cycle ends with
the bookkeeping state. -/
def checkSMSBalance (cfg : MonitorConfig) (tCheck tAlert : Nat) (state0 : MonitorState)
    (fetched : Option (Option Int)) (sendOk : Bool) : CycleResult :=
  let s1 := { state0 with
                totalChecks := state0.totalChecks + 1
                lastCheckTime := some tCheck }
  match fetched with
  | none => ⟨s1, s1, false, false⟩
  | some none => ⟨s1, s1, false, false⟩
  | some (some balance) =>
      if balance ≤ cfg.threshold then
        let r := alertLowSMSBalance cfg tAlert balance s1 sendOk
        ⟨s1, r.1, true, r.2⟩
      else
        if s1.consecutiveNotificationCount > 0 then
          ⟨s1, { s1 with consecutiveNotificationCount := 0, lastKnownBalance := some balance },
           false, false⟩
        else
          ⟨s1, { s1 with lastKnownBalance := some balance }, false, false⟩

/-- The states the monitor can reach by running `checkSMSBalance` cycles from
`defaultState` (the state `loadState` yields when no file exists). -/
inductive Reachable (cfg : MonitorConfig) : MonitorState → Prop
  | init : Reachable cfg defaultState
  | step (s : MonitorState) (tCheck tAlert : Nat) (fetched : Option (Option Int)) (sendOk : Bool) :
      Reachable cfg s → Reachable cfg (checkSMSBalance cfg tCheck tAlert s fetched sendOk).final

/-- The serialized form `JSON.stringify(state)` writes: a JSON object in which
every `MonitorState` key is present (outer `some`); a key may also be absent
(outer `none`) in a hand-edited or older file, which is what `loadState`'s
merge with `defaultState` handles. -/
structure PersistedState where
  lastNotificationTime : Option (Option Nat)
  consecutiveNotificationCount : Option Nat
  lastKnownBalance : Option (Option Int)
  lastCheckTime : Option (Option Nat)
  totalChecks : Option Nat
  totalNotifications : Option Nat
  deriving Repr, DecidableEq

/-- `saveState(state)`: `JSON.stringify` emits every field of the state object
(a `null` value is kept as the JSON value `null`, i.e. inner `none`). -/
def saveState (s : MonitorState) : PersistedState :=
  { lastNotificationTime := some s.lastNotificationTime
    consecutiveNotificationCount := some s.consecutiveNotificationCount
    lastKnownBalance := some s.lastKnownBalance
    lastCheckTime := some s.lastCheckTime
    totalChecks := some s.totalChecks
    totalNotifications := some s.totalNotifications }

/-- `loadState()`: a missing or unreadable file (`none`) yields the defaults;
otherwise the parsed object is spread over `defaultState`
(`{ ...defaultState, ...state }`), so each absent key falls back to its
default. -/
def loadState (file : Option PersistedState) : MonitorState :=
  match file with
  | none => defaultState
  | some p =>
      { lastNotificationTime := p.lastNotificationTime.getD defaultState.lastNotificationTime
        consecutiveNotificationCount :=
          p.consecutiveNotificationCount.getD defaultState.consecutiveNotificationCount
        lastKnownBalance := p.lastKnownBalance.getD defaultState.lastKnownBalance
        lastCheckTime := p.lastCheckTime.getD defaultState.lastCheckTime
        totalChecks := p.totalChecks.getD defaultState.totalChecks
        totalNotifications := p.totalNotifications.getD defaultState.totalNotifications }

/-- `ALERT_CONFIG.recipients` of `config.js`: when `SMS_ALERT_RECIPIENTS` is
set and non-empty (JS truthiness: the empty string is falsy) it is split on
commas and each part trimmed; otherwise the list is `['']` — a one-element
list holding the empty string. -/
def alertRecipients (env : Option String) : List String :=
  match env with
  | some s => if s.length = 0 then [""] else (s.splitOn ",").map (fun r => r.trim)
  | none => [""]

/-- The recipient clause of `validateConfig()` in `config.js`: an error is
recorded iff `!recipients || recipients.length === 0`. `recipients` is always
an array and arrays are truthy in JS, so the clause reduces to the length
test. -/
def recipientsConfigError (recipients : List String) : Bool :=
  recipients.length == 0

/-! ## Helper lemmas -/

/-- When the balance is at or below the threshold, `shouldSendNotification`
leaves the state untouched (its only mutation lives in the recovered branch). -/
lemma shouldSend_snd_of_le (cfg : MonitorConfig) (now : Nat) (b : Int) (s : MonitorState)
    (hb : b ≤ cfg.threshold) : (shouldSendNotification cfg now b s).2 = s := by
  simp only [shouldSendNotification]
  repeat' split
  all_goals first | rfl | omega

/-- With the counter at or above the maximum, the verdict of
`shouldSendNotification` is `false` whatever the balance. -/
lemma shouldSend_fst_false_of_max (cfg : MonitorConfig) (now : Nat) (b : Int) (s : MonitorState)
    (hm : cfg.maxConsecutiveNotifications ≤ s.consecutiveNotificationCount) :
    (shouldSendNotification cfg now b s).1 = false := by
  simp only [shouldSendNotification]
  repeat' split
  all_goals first | rfl | omega

/-- A `true` verdict from `shouldSendNotification` implies the consecutive
counter is strictly below the configured maximum. -/
lemma shouldSend_true_count_lt (cfg : MonitorConfig) (now : Nat) (b : Int) (s : MonitorState)
    (h : (shouldSendNotification cfg now b s).1 = true) :
    s.consecutiveNotificationCount < cfg.maxConsecutiveNotifications := by
  by_contra hc
  push_neg at hc
  rw [shouldSend_fst_false_of_max cfg now b s hc] at h
  exact Bool.false_ne_true h

/-- `lastKnownBalance` after `alertLowSMSBalance`: it becomes the observed
balance exactly when an SMS was delivered, and is otherwise untouched. -/
lemma alert_lastKnown (cfg : MonitorConfig) (now : Nat) (b : Int) (s : MonitorState) (ok : Bool)
    (hb : b ≤ cfg.threshold) :
    (alertLowSMSBalance cfg now b s ok).1.lastKnownBalance =
      if (alertLowSMSBalance cfg now b s ok).2 then some b else s.lastKnownBalance := by
  have hs2 := shouldSend_snd_of_le cfg now b s hb
  simp only [alertLowSMSBalance, hs2]
  split
  · split <;> rfl
  · rfl

/-- One `checkSMSBalance` cycle never pushes the consecutive counter past the
configured maximum. -/
lemma final_count_le (cfg : MonitorConfig) (t1 t2 : Nat) (s : MonitorState)
    (f : Option (Option Int)) (ok : Bool)
    (ih : s.consecutiveNotificationCount ≤ cfg.maxConsecutiveNotifications) :
    (checkSMSBalance cfg t1 t2 s f ok).final.consecutiveNotificationCount ≤
      cfg.maxConsecutiveNotifications := by
  rcases f with _ | (_ | b)
  · exact ih
  · exact ih
  · simp only [checkSMSBalance]
    split
    · rename_i hb
      have hs2 := shouldSend_snd_of_le cfg t2 b
        { s with totalChecks := s.totalChecks + 1, lastCheckTime := some t1 } hb
      simp only [alertLowSMSBalance, hs2]
      split
      · rename_i hsend
        have hlt := shouldSend_true_count_lt cfg t2 b
          { s with totalChecks := s.totalChecks + 1, lastCheckTime := some t1 } hsend
        split
        · simpa using hlt
        · simpa using ih
      · simpa using ih
    · split
      · simp
      · simpa using ih

/-- Serializing a `MonitorState` and merging it back over the defaults is the
identity. -/
lemma loadState_saveState (s : MonitorState) : loadState (some (saveState s)) = s := by
  cases s
  rfl

/-! ## Scenario states used by witnesses and counterexamples -/

/-- Scenario B of the spec: one notification already sent 5 minutes ago
(epoch 300000, now 600000), last known balance 650. -/
def stateB : MonitorState :=
  { lastNotificationTime := some 300000
    consecutiveNotificationCount := 1
    lastKnownBalance := some 650
    lastCheckTime := some 300000
    totalChecks := 3
    totalNotifications := 1 }

/-- Scenario F of the spec: two notifications sent, balance about to recover. -/
def stateF : MonitorState :=
  { lastNotificationTime := some 100000
    consecutiveNotificationCount := 2
    lastKnownBalance := some 640
    lastCheckTime := some 100000
    totalChecks := 9
    totalNotifications := 2 }

/-- The default configuration tightened to a single allowed consecutive
notification, so a reachable state actually at the cap exists after one
cycle. -/
def cfgMaxOne : MonitorConfig :=
  { defaultMonitorConfig with maxConsecutiveNotifications := 1 }

/-! ## Claims -/

/-- C1 (counterexample): with the default configuration, balance 650 and the
fresh default state, a cycle whose `sendSMS` rejects leaves the state exactly
as it was: the counter stays 0, `lastNotificationTime` stays null,
`totalNotifications` stays 0 and `lastKnownBalance` stays null — contradicting
the claim that a failed dispatch still increments the counter, stamps the
notification time, counts the notification and records the balance. -/
theorem sms_c1_counterexample :
    (alertLowSMSBalance defaultMonitorConfig 1000000 650 defaultState false).1.consecutiveNotificationCount = 0 ∧
    (alertLowSMSBalance defaultMonitorConfig 1000000 650 defaultState false).1.lastNotificationTime = none ∧
    (alertLowSMSBalance defaultMonitorConfig 1000000 650 defaultState false).1.totalNotifications = 0 ∧
    (alertLowSMSBalance defaultMonitorConfig 1000000 650 defaultState false).1.lastKnownBalance = none := by
  exact ⟨rfl, rfl, rfl, rfl⟩

/-- C1 (amended): when `sendSMS` rejects, `alertLowSMSBalance` applies no part
of the notification state delta — the persisted state is exactly the one
`shouldSendNotification` left, with no counter increment, no
`lastNotificationTime` stamp, no `totalNotifications` increment and no
`lastKnownBalance` update, and no SMS is delivered; the failure is only
logged. (The source applies the delta strictly after a successful `await
sendSMS`, so a rejected dispatch skips it.) -/
theorem sms_c1_failed_dispatch_no_state_change (cfg : MonitorConfig) (now : Nat) (b : Int)
    (s : MonitorState) :
    alertLowSMSBalance cfg now b s false = ((shouldSendNotification cfg now b s).2, false) := by
  simp only [alertLowSMSBalance]
  split <;> rfl

/-- C2 (counterexample): with the default configuration and Scenario B's state
(counter 1, last notification 5 minutes ago, last known balance 650), a
processed check observing balance 640 is skipped by the cooldown rule and
leaves `lastKnownBalance` at 650 — contradicting the claim that every
processed check updates it to the observed balance. -/
theorem sms_c2_counterexample :
    (checkSMSBalance defaultMonitorConfig 600000 600000 stateB (some (some 640)) true).engineInvoked = true ∧
    (checkSMSBalance defaultMonitorConfig 600000 600000 stateB (some (some 640)) true).final.lastKnownBalance = some 650 ∧
    (checkSMSBalance defaultMonitorConfig 600000 600000 stateB (some (some 640)) true).final.lastKnownBalance ≠ some 640 := by
  refine ⟨rfl, by decide, by decide⟩

/-- C2 (amended): on a processed check (a numeric balance was obtained),
`lastKnownBalance` is set to the observed balance exactly when the balance is
above the threshold or a notification was actually delivered; on every other
processed check (skip by max-count, cooldown or balance-change, or a failed
dispatch) it is left unchanged, as it also is when the check fails to obtain
a balance. -/
theorem sms_c2_lastKnownBalance_update (cfg : MonitorConfig) (t1 t2 : Nat) (s : MonitorState)
    (b : Int) (ok : Bool) :
    (checkSMSBalance cfg t1 t2 s (some (some b)) ok).final.lastKnownBalance =
      (if b > cfg.threshold then some b
       else if (checkSMSBalance cfg t1 t2 s (some (some b)) ok).notificationSent then some b
       else s.lastKnownBalance) := by
  by_cases hb : b ≤ cfg.threshold
  · have hnb : ¬ b > cfg.threshold := not_lt.mpr hb
    rw [if_neg hnb]
    simp only [checkSMSBalance, if_pos hb]
    exact alert_lastKnown cfg t2 b _ ok hb
  · push_neg at hb
    rw [if_pos hb]
    simp only [checkSMSBalance, if_neg (not_le.mpr hb)]
    split <;> rfl

/-- C3: whenever the consecutive counter is 0 and the observed balance is at
or below the threshold (and the configured maximum is at least 1, as the
configuration contract requires), `shouldSendNotification` answers Send and
leaves the state untouched — the first alert of an episode is never
rate-limited by cooldown, balance-change threshold or any timestamp. -/
theorem sms_c3_first_alert_always_sends (cfg : MonitorConfig) (now : Nat) (b : Int)
    (s : MonitorState) (h0 : s.consecutiveNotificationCount = 0) (hb : b ≤ cfg.threshold)
    (hmax : 1 ≤ cfg.maxConsecutiveNotifications) :
    shouldSendNotification cfg now b s = (true, s) := by
  have hnb : ¬ b > cfg.threshold := not_lt.mpr hb
  have hm : ¬ s.consecutiveNotificationCount ≥ cfg.maxConsecutiveNotifications := by omega
  have hm0 : ¬ cfg.maxConsecutiveNotifications = 0 := by omega
  simp [shouldSendNotification, hnb, hm, hm0, h0]

/-- C3 witness: Scenario A — defaults, fresh state, balance 650 → Send. -/
theorem sms_c3_first_alert_witness :
    shouldSendNotification defaultMonitorConfig 123 650 defaultState = (true, defaultState) :=
  sms_c3_first_alert_always_sends defaultMonitorConfig 123 650 defaultState rfl (by decide)
    (by decide)

/-- C5: on a cycle observing a balance strictly above the threshold, whatever
the prior state, no notification is sent, the decision logic is not even
invoked, the consecutive counter of the final state is 0 and
`lastKnownBalance` is set to the observed balance. -/
theorem sms_c5_recovery_resets (cfg : MonitorConfig) (t1 t2 : Nat) (s : MonitorState)
    (b : Int) (ok : Bool) (hb : b > cfg.threshold) :
    (checkSMSBalance cfg t1 t2 s (some (some b)) ok).final.consecutiveNotificationCount = 0 ∧
    (checkSMSBalance cfg t1 t2 s (some (some b)) ok).final.lastKnownBalance = some b ∧
    (checkSMSBalance cfg t1 t2 s (some (some b)) ok).notificationSent = false ∧
    (checkSMSBalance cfg t1 t2 s (some (some b)) ok).engineInvoked = false := by
  simp only [checkSMSBalance, if_neg (not_le.mpr hb)]
  split
  · exact ⟨rfl, rfl, rfl, rfl⟩
  · rename_i h
    exact ⟨Nat.eq_zero_of_not_pos h, rfl, rfl, rfl⟩

/-- C5 witness: Scenario F — counter 2, balance 750 → skip, reset, balance
recorded. -/
theorem sms_c5_recovery_witness :
    (checkSMSBalance defaultMonitorConfig 2200000 2200001 stateF (some (some 750)) true).final.consecutiveNotificationCount = 0 ∧
    (checkSMSBalance defaultMonitorConfig 2200000 2200001 stateF (some (some 750)) true).final.lastKnownBalance = some 750 ∧
    (checkSMSBalance defaultMonitorConfig 2200000 2200001 stateF (some (some 750)) true).notificationSent = false ∧
    (checkSMSBalance defaultMonitorConfig 2200000 2200001 stateF (some (some 750)) true).engineInvoked = false :=
  sms_c5_recovery_resets defaultMonitorConfig 2200000 2200001 stateF 750 true (by decide)

/-- C4: in every state reachable by running cycles from the fresh default
state, `consecutiveNotificationCount` never exceeds
`maxConsecutiveNotifications`; and in any state whose counter has reached the
maximum, a cycle observing a balance at or below the threshold decides Skip —
no notification until a reset. -/
theorem sms_c4_count_capped (cfg : MonitorConfig) (s : MonitorState) (h : Reachable cfg s) :
    s.consecutiveNotificationCount ≤ cfg.maxConsecutiveNotifications ∧
    ∀ now b, b ≤ cfg.threshold →
      cfg.maxConsecutiveNotifications ≤ s.consecutiveNotificationCount →
      (shouldSendNotification cfg now b s).1 = false := by
  refine ⟨?_, fun now b _ hm => shouldSend_fst_false_of_max cfg now b s hm⟩
  induction h with
  | init => exact Nat.zero_le _
  | step s t1 t2 f ok hr ih => exact final_count_le cfg t1 t2 s f ok ih

/-- C4 witness: with the maximum tightened to 1, the state reached after one
successful alert cycle has its counter at the cap (1 ≤ 1) and a further
low-balance observation is skipped. -/
theorem sms_c4_count_capped_witness :
    (checkSMSBalance cfgMaxOne 5 6 defaultState (some (some 650)) true).final.consecutiveNotificationCount ≤
      cfgMaxOne.maxConsecutiveNotifications ∧
    (shouldSendNotification cfgMaxOne 7 650
      (checkSMSBalance cfgMaxOne 5 6 defaultState (some (some 650)) true).final).1 = false := by
  have h := sms_c4_count_capped cfgMaxOne
    (checkSMSBalance cfgMaxOne 5 6 defaultState (some (some 650)) true).final
    (Reachable.step defaultState 5 6 (some (some 650)) true Reachable.init)
  exact ⟨h.1, h.2 7 650 (by decide) (by decide)⟩

/-- C6 (code bug): with `SMS_ALERT_RECIPIENTS` unset (or set to the empty
string), `ALERT_CONFIG.recipients` falls back to `['']` — a one-element list
holding the empty string — so the recipient clause of `validateConfig`
(`recipients.length === 0`) raises no error and startup proceeds to polling,
contradicting the claim that an empty recipient list is a startup-fatal
configuration error. -/
theorem sms_c6_empty_recipients_accepted :
    alertRecipients none = [""] ∧
    recipientsConfigError (alertRecipients none) = false ∧
    alertRecipients (some "") = [""] ∧
    recipientsConfigError (alertRecipients (some "")) = false := by
  exact ⟨rfl, rfl, rfl, rfl⟩

/-- C7: in a state within an episode (counter between 1 and the maximum
exclusive), with the balance at or below the threshold, a JS-truthy
`lastNotificationTime` and the elapsed time strictly below the cooldown, the
decision is Skip and the reported reason is the cooldown message carrying
`minutesRemaining`, which is exactly the ceiling of
(cooldown − elapsed) / 60000: it is the unique N with
60000·(N−1) < cooldown − elapsed ≤ 60000·N. -/
theorem sms_c7_cooldown_skip (cfg : MonitorConfig) (now : Nat) (b : Int) (s : MonitorState)
    (t : Nat) (ht : s.lastNotificationTime = some t) (ht0 : t ≠ 0)
    (h1 : 1 ≤ s.consecutiveNotificationCount)
    (h2 : s.consecutiveNotificationCount < cfg.maxConsecutiveNotifications)
    (hb : b ≤ cfg.threshold)
    (hel : (now : Int) - (t : Int) < (cfg.notificationCooldown : Int)) :
    (shouldSendNotification cfg now b s).1 = false ∧
    getSkipReason cfg now b s = cooldownMsg (minutesRemaining cfg now t) ∧
    60000 * ((minutesRemaining cfg now t : Int) - 1) <
      (cfg.notificationCooldown : Int) - ((now : Int) - (t : Int)) ∧
    (cfg.notificationCooldown : Int) - ((now : Int) - (t : Int)) ≤
      60000 * (minutesRemaining cfg now t : Int) := by
  have hca : cooldownActive cfg now s.lastNotificationTime = true := by
    rw [ht]
    simp [cooldownActive, ht0, hel]
  have hnb : ¬ b > cfg.threshold := not_lt.mpr hb
  have hm : ¬ s.consecutiveNotificationCount ≥ cfg.maxConsecutiveNotifications := by omega
  have h0 : ¬ s.consecutiveNotificationCount = 0 := by omega
  have hca2 : cooldownActive cfg now (some t) = true := ht ▸ hca
  refine ⟨?_, ?_, ?_, ?_⟩
  · simp [shouldSendNotification, hnb, hm, h0, hca]
  · simp [getSkipReason, hnb, hm, h0, ht, hca2]
  · simp only [minutesRemaining]
    omega
  · simp only [minutesRemaining]
    omega

/-- C7 witness: Scenario B — defaults (30-minute cooldown), counter 1, last
notification 5 minutes ago, balance 640 → Skip with 25 minutes remaining. -/
theorem sms_c7_cooldown_witness :
    (shouldSendNotification defaultMonitorConfig 600000 640 stateB).1 = false ∧
    getSkipReason defaultMonitorConfig 600000 640 stateB = cooldownMsg 25 := by
  have h := sms_c7_cooldown_skip defaultMonitorConfig 600000 640 stateB 300000 rfl
    (by decide) (by decide) (by decide) (by decide) (by decide)
  have hm : minutesRemaining defaultMonitorConfig 600000 300000 = 25 := by decide
  exact ⟨h.1, by rw [h.2.1, hm]⟩

/-- C8: every cycle's first persisted state is the prior state with
`totalChecks` incremented and `lastCheckTime` stamped, whatever the fetch
outcome (the bookkeeping write precedes the fetch); and on a failed fetch the
cycle ends with exactly that bookkeeping state — `lastKnownBalance`
untouched — with the decision logic never invoked and no notification sent. -/
theorem sms_c8_bookkeeping_first (cfg : MonitorConfig) (t1 t2 : Nat) (s : MonitorState)
    (f : Option (Option Int)) (ok : Bool) :
    (checkSMSBalance cfg t1 t2 s f ok).bookkeeping =
      { s with totalChecks := s.totalChecks + 1, lastCheckTime := some t1 } ∧
    (checkSMSBalance cfg t1 t2 s none ok).final =
      (checkSMSBalance cfg t1 t2 s none ok).bookkeeping ∧
    (checkSMSBalance cfg t1 t2 s none ok).final.lastKnownBalance = s.lastKnownBalance ∧
    (checkSMSBalance cfg t1 t2 s none ok).engineInvoked = false ∧
    (checkSMSBalance cfg t1 t2 s none ok).notificationSent = false := by
  refine ⟨?_, rfl, rfl, rfl, rfl⟩
  rcases f with _ | (_ | b)
  · rfl
  · rfl
  · simp only [checkSMSBalance]
    repeat' split
    all_goals rfl

/-- C9: serializing any `MonitorState` (every key written, as `JSON.stringify`
does) and loading it back through the defaults-merging `loadState` yields a
state on which both the Send/Skip verdict and the skip reason coincide with
those computed on the original state, for any fixed subsequent input. -/
theorem sms_c9_roundtrip_decision (cfg : MonitorConfig) (now : Nat) (b : Int)
    (s : MonitorState) :
    shouldSendNotification cfg now b (loadState (some (saveState s))) =
      shouldSendNotification cfg now b s ∧
    getSkipReason cfg now b (loadState (some (saveState s))) = getSkipReason cfg now b s := by
  rw [loadState_saveState]
  exact ⟨rfl, rfl⟩

/-- C10: whenever the balance is at or below the threshold and
`shouldSendNotification` answers Skip, `getSkipReason` evaluated on the same
inputs and the state `shouldSendNotification` left returns one of the three
concrete reasons (max-consecutive, cooldown, balance-change); the "Unknown"
and "Unknown (should not happen)" fallbacks are unreachable. -/
theorem sms_c10_skip_reason_concrete (cfg : MonitorConfig) (now : Nat) (b : Int)
    (s : MonitorState) (hb : b ≤ cfg.threshold)
    (hskip : (shouldSendNotification cfg now b s).1 = false) :
    getSkipReason cfg now b (shouldSendNotification cfg now b s).2 =
        maxReachedMsg cfg.maxConsecutiveNotifications ∨
    (∃ m, getSkipReason cfg now b (shouldSendNotification cfg now b s).2 = cooldownMsg m) ∨
    getSkipReason cfg now b (shouldSendNotification cfg now b s).2 =
        balanceChangeMsg cfg.balanceChangeThreshold := by
  rw [shouldSend_snd_of_le cfg now b s hb] at *
  have hnb : ¬ b > cfg.threshold := not_lt.mpr hb
  by_cases hmax : s.consecutiveNotificationCount ≥ cfg.maxConsecutiveNotifications
  · left
    simp [getSkipReason, hnb, hmax]
  · by_cases h0 : s.consecutiveNotificationCount = 0
    · exfalso
      have hm0 : ¬ cfg.maxConsecutiveNotifications = 0 := by omega
      simp [shouldSendNotification, hnb, hmax, hm0, h0] at hskip
    · by_cases hcd : cooldownActive cfg now s.lastNotificationTime
      · right; left
        refine ⟨minutesRemaining cfg now (s.lastNotificationTime.getD 0), ?_⟩
        simp [getSkipReason, hnb, hmax, h0, hcd]
      · by_cases hch : balanceChangeTooSmall cfg b s.lastKnownBalance
        · right; right
          simp [getSkipReason, hnb, hmax, h0, hcd, hch]
        · exfalso
          simp [shouldSendNotification, hnb, hmax, h0, hcd, hch] at hskip

/-- C10 witness: Scenario B's skip resolves to the concrete cooldown reason,
not a fallback. -/
theorem sms_c10_skip_reason_witness :
    getSkipReason defaultMonitorConfig 600000 640
        (shouldSendNotification defaultMonitorConfig 600000 640 stateB).2 =
      maxReachedMsg defaultMonitorConfig.maxConsecutiveNotifications ∨
    (∃ m, getSkipReason defaultMonitorConfig 600000 640
        (shouldSendNotification defaultMonitorConfig 600000 640 stateB).2 = cooldownMsg m) ∨
    getSkipReason defaultMonitorConfig 600000 640
        (shouldSendNotification defaultMonitorConfig 600000 640 stateB).2 =
      balanceChangeMsg defaultMonitorConfig.balanceChangeThreshold :=
  sms_c10_skip_reason_concrete defaultMonitorConfig 600000 640 stateB (by decide) (by decide)

end SMSBalanceMonitor
